import Mathlib

/-!
Shallow embedding of `src/pipeline/src/utils/cmd_executor.py`.

The module runs external commands. Pure parts (command normalization,
result redaction, result checking, the control flow of `run_cmd` and
`run_parallely_cmds`) are translated directly; the operating system
(process spawning, waiting, reading output) is an oracle passed in as a
`OS` structure of functions, and Python exceptions are an explicit
`PyExc` error channel (`Except PyExc _`).  Logging calls (`logger.info`,
`logger.debug`) are fire-and-forget with no return value and, per the
module contract, never raise; they are dropped from the embedding.
-/

/-- Python `Union[str, List[str]]`, the raw command accepted everywhere. -/
inductive Cmd where
  | str (s : String)
  | list (l : List String)
deriving DecidableEq, Repr

/-- Python truthiness of the raw command: `not cmd` holds exactly for the
empty string and the empty list. -/
def Cmd.falsy : Cmd → Bool
  | .str s => s == ""
  | .list l => l == []

/-! ### A model of `shlex.split` (POSIX mode), used by `_Command.execf`.

State machine over the characters: whitespace separates words, a backslash
escapes the next character, single quotes are fully literal, double quotes
are literal except that a backslash escapes `"` and `\` inside them.
Python raises `ValueError` on an unclosed quote or a trailing escape; the
claims never exercise that case, and this model simply flushes the pending
word at end of input instead. -/

inductive ShMode where
  | norm
  | esc
  | squote
  | dquote
  | dqesc
deriving DecidableEq, Repr

structure ShState where
  acc : List String
  cur : Option String
  mode : ShMode
deriving DecidableEq, Repr

/-- `shlex.whitespace`: space, tab, carriage return, newline. -/
def shWhitespace (c : Char) : Bool :=
  c == ' ' || c == '\t' || c == '\r' || c == '\n'

def shStep (st : ShState) (c : Char) : ShState :=
  match st.mode with
  | .norm =>
    if shWhitespace c then
      match st.cur with
      | some t => ⟨st.acc ++ [t], none, .norm⟩
      | none => st
    else if c == '\\' then ⟨st.acc, some (st.cur.getD ""), .esc⟩
    else if c == '\x27' then ⟨st.acc, some (st.cur.getD ""), .squote⟩
    else if c == '"' then ⟨st.acc, some (st.cur.getD ""), .dquote⟩
    else ⟨st.acc, some ((st.cur.getD "").push c), .norm⟩
  | .esc => ⟨st.acc, some ((st.cur.getD "").push c), .norm⟩
  | .squote =>
    if c == '\x27' then ⟨st.acc, st.cur, .norm⟩
    else ⟨st.acc, some ((st.cur.getD "").push c), .squote⟩
  | .dquote =>
    if c == '"' then ⟨st.acc, st.cur, .norm⟩
    else if c == '\\' then ⟨st.acc, st.cur, .dqesc⟩
    else ⟨st.acc, some ((st.cur.getD "").push c), .dquote⟩
  | .dqesc =>
    if c == '"' || c == '\\' then ⟨st.acc, some ((st.cur.getD "").push c), .dquote⟩
    else ⟨st.acc, some (((st.cur.getD "").push '\\').push c), .dquote⟩

def shFinish (st : ShState) : List String :=
  match st.cur with
  | some t => st.acc ++ [t]
  | none => st.acc

def shlexSplit (s : String) : List String :=
  shFinish (s.data.foldl shStep ⟨[], none, .norm⟩)

/-- The `_Command` class: wraps the raw command, exposing it in shell and
exec formats through the two properties below. -/
structure _Command where
  _cmd : Cmd
deriving DecidableEq, Repr

/-- Property `shellf`: a list command is joined with single spaces
(`" ".join(self._cmd)`, no shell escaping); a string passes through. -/
def _Command.shellf (c : _Command) : String :=
  match c._cmd with
  | .list l => String.intercalate " " l
  | .str s => s

/-- Property `execf`: a string command is tokenized by `shlex.split`; a
list passes through. -/
def _Command.execf (c : _Command) : List String :=
  match c._cmd with
  | .str s => shlexSplit s
  | .list l => l

/-- Result of `CmdExecutor._call`: exit code plus the merged output. -/
structure _CallAnswer where
  returncode : Int
  stdout : String
deriving DecidableEq, Repr

/-- The `command` attribute of a `CmdExecutorAnswer`.  Python is
dynamically typed: `run_cmd` stores a `_Command` object there, while
`run_parallely_cmds` stores `_proc.args`, the raw argument list. -/
inductive CmdField where
  | obj (c : _Command)
  | args (l : List String)
deriving DecidableEq, Repr

/-- Dataclass with a finished command's result. -/
structure CmdExecutorAnswer where
  exit_code : Int
  command : CmdField
  stdout : String
  stderr : String
deriving DecidableEq, Repr

/-- Dataclass pairing a subprocess pid with its result. -/
structure CmdExecutorParallelAnswer where
  pid : Nat
  result : CmdExecutorAnswer
deriving DecidableEq, Repr

/-- Python exceptions raised (or modelled) in this module.
`answerResultError` is `CmdExecutorAnswerResultError`; its constructor
copies `exit_code`, `command`, `stdout`, `stderr` out of the carried
answer, so the answer itself is all the state.  `cause` records an
explicit `raise ... from err` chain.  `unboundLocalError` models CPython
raising `UnboundLocalError` when a never-assigned local is read. -/
inductive PyExc where
  | valueError (msg : String)
  | answerResultError (answer : CmdExecutorAnswer) (cause : Option PyExc)
  | unboundLocalError (name : String)

/-- Result of `subprocess.run` (a `CompletedProcess`). -/
structure CompletedProcess where
  returncode : Int
  stdout : String
  stderr : String
deriving DecidableEq, Repr

/-- A `subprocess.Popen` handle after `wait()` and reading both pipes. -/
structure PopenHandle where
  pid : Nat
  returncode : Int
  stdout : String
  stderr : String
deriving DecidableEq, Repr

/-- The operating-system oracle.  `callResult` is the outcome of the
whole streamed `CmdExecutor._call` polling loop on the shell-format
command (stderr merged into stdout upstream); `runResult` is the outcome
of `subprocess.run` on the exec-format command with optional stdin; both
may fault with an arbitrary exception, modelled as its message.  `popen`
gives the handle of the process spawned at a given launch position with a
given argument vector (batch mode launches every process before waiting,
and pids are assigned at launch, in launch order). -/
structure OS where
  callResult : String → Except String _CallAnswer
  runResult : List String → Option String → Except String CompletedProcess
  popen : Nat → List String → PopenHandle

/-- `CmdExecutor._prepare_command`: raises `ValueError("Empty command")`
on a falsy (empty) raw command, otherwise wraps it in a `_Command`. -/
def CmdExecutor._prepare_command (cmd : Cmd) : Except PyExc _Command :=
  if cmd.falsy then .error (.valueError "Empty command") else .ok ⟨cmd⟩

/-- `CmdExecutor._prepare_check_result_answer`: when `hidden_command` is
set, build a fresh answer with the command replaced by
`_Command(["HIDDEN"])` and `stderr` set to the captured stdout;
otherwise return the answer unchanged. -/
def CmdExecutor._prepare_check_result_answer
    (answer : CmdExecutorAnswer) (hidden_command : Bool) : CmdExecutorAnswer :=
  if hidden_command then
    { exit_code := answer.exit_code
      command := .obj ⟨.list ["HIDDEN"]⟩
      stdout := answer.stdout
      stderr := answer.stdout }
  else answer

/-- `CmdExecutor._invoke_call`: streamed mode; runs `_call` on the
shell-format command and builds an answer with empty stderr (it was
merged into stdout).  `call_log` only drives logging inside `_call`. -/
def CmdExecutor._invoke_call (os : OS) (cmd : _Command) (call_log : Bool) :
    Except String CmdExecutorAnswer :=
  let _ := call_log
  match os.callResult cmd.shellf with
  | .error e => .error e
  | .ok result => .ok ⟨result.returncode, .obj cmd, result.stdout, ""⟩

/-- `CmdExecutor._invoke_run`: direct mode; runs `subprocess.run` on the
exec-format command with the given stdin and keeps stdout and stderr
separate. -/
def CmdExecutor._invoke_run (os : OS) (cmd : _Command) (stdin : Option String) :
    Except String CmdExecutorAnswer :=
  match os.runResult cmd.execf stdin with
  | .error e => .error e
  | .ok result => .ok ⟨result.returncode, .obj cmd, result.stdout, result.stderr⟩

/-- `CmdExecutor.check_result`: raises `CmdExecutorAnswerResultError(answer)`
iff `answer.exit_code` is truthy, i.e. nonzero. -/
def CmdExecutor.check_result (answer : CmdExecutorAnswer) : Except PyExc Unit :=
  if answer.exit_code ≠ 0 then .error (.answerResultError answer none) else .ok ()

/-- `CmdExecutor.runCmd`.  Normalization happens outside the `try`, so
`ValueError` always escapes.  Inside the `try`, the command is invoked in
call or normal mode; when `check_result` is set the answer is (possibly)
redacted and then checked.  The `except Exception` handler re-raises
`CmdExecutorAnswerResultError(answer) from err` when `check_result` is
set, else falls through to `return answer`.  When the invocation itself
faulted, the local `answer` was never assigned, so CPython raises
`UnboundLocalError("answer")` on both of those paths — while building the
re-raised error, and at the `return` — which this embedding reproduces. -/
def CmdExecutor.runCmd (os : OS) (cmd : Cmd) (stdin : Option String)
    (call : Bool) (hidden_command : Bool) (check_result : Bool) (call_log : Bool) :
    Except PyExc CmdExecutorAnswer :=
  match CmdExecutor._prepare_command cmd with
  | .error e => .error e
  | .ok command =>
    let invoked :=
      if call then CmdExecutor._invoke_call os command call_log
      else CmdExecutor._invoke_run os command stdin
    match invoked with
    | .error _err => .error (.unboundLocalError "answer")
    | .ok answer0 =>
      if check_result then
        let answer := CmdExecutor._prepare_check_result_answer answer0 hidden_command
        match CmdExecutor.check_result answer with
        | .error err => .error (.answerResultError answer (some err))
        | .ok _ => .ok answer
      else .ok answer0

/-- The list comprehension
`[CmdExecutor._prepare_command(cmd) for cmd in cmd_list]`: normalizes
left to right, the first `ValueError` aborting the whole batch. -/
def CmdExecutor._prepare_commands : List Cmd → Except PyExc (List _Command)
  | [] => .ok []
  | c :: rest =>
    match CmdExecutor._prepare_command c with
    | .error e => .error e
    | .ok c2 =>
      match CmdExecutor._prepare_commands rest with
      | .error e => .error e
      | .ok rest2 => .ok (c2 :: rest2)

/-- The launch-then-collect phase of `run_parallely_cmds`: the process at
launch position `i` runs `cmd.execf` without a shell; after all launches
the code waits in launch order and builds one
`CmdExecutorParallelAnswer` per process, storing `_proc.args` (the raw
argument vector) in the `command` field. -/
def CmdExecutor._spawn_collect (os : OS) : Nat → List _Command → List CmdExecutorParallelAnswer
  | _, [] => []
  | i, c :: rest =>
    let _proc := os.popen i c.execf
    ⟨_proc.pid, ⟨_proc.returncode, .args c.execf, _proc.stdout, _proc.stderr⟩⟩
      :: CmdExecutor._spawn_collect os (i + 1) rest

/-- `CmdExecutor.run_parallely_cmds`: normalize every command first
(aborting on an empty one before anything is spawned), then launch all
processes and collect their results in launch order. -/
def CmdExecutor.run_parallely_cmds (os : OS) (cmd_list : List Cmd) :
    Except PyExc (List CmdExecutorParallelAnswer) :=
  match CmdExecutor._prepare_commands cmd_list with
  | .error e => .error e
  | .ok cmds => .ok (CmdExecutor._spawn_collect os 0 cmds)

/-! ### Concrete oracles used by witnesses and counterexamples -/

/-- Oracle where every process exits with code 7. -/
def osSeven : OS :=
  { callResult := fun _ => .ok ⟨7, "live"⟩
    runResult := fun _ _ => .ok ⟨7, "out", "err"⟩
    popen := fun i _ => ⟨i, 7, "", ""⟩ }

/-- Oracle where every process succeeds with distinct stdout and stderr. -/
def osZero : OS :=
  { callResult := fun _ => .ok ⟨0, "live"⟩
    runResult := fun _ _ => .ok ⟨0, "out", "err"⟩
    popen := fun i _ => ⟨i, 0, "", ""⟩ }

/-- Oracle where spawning itself faults (e.g. the executable is missing). -/
def osFault : OS :=
  { callResult := fun _ => .error "FileNotFoundError"
    runResult := fun _ _ => .error "FileNotFoundError"
    popen := fun i _ => ⟨i, 0, "", ""⟩ }

/-- Oracle for batch runs: pid 100 + launch position, all succeed. -/
def osPar : OS :=
  { callResult := fun _ => .ok ⟨0, ""⟩
    runResult := fun _ _ => .ok ⟨0, "", ""⟩
    popen := fun i _ => ⟨100 + i, 0, "o", "e"⟩ }

/-! ### Helper lemmas -/

lemma prepare_answer_fields (a : CmdExecutorAnswer) (hidden : Bool) :
    (CmdExecutor._prepare_check_result_answer a hidden).exit_code = a.exit_code ∧
    (CmdExecutor._prepare_check_result_answer a hidden).stdout = a.stdout := by
  cases hidden <;> simp [CmdExecutor._prepare_check_result_answer]

lemma prepare_command_ok (c : Cmd) (c2 : _Command)
    (h : CmdExecutor._prepare_command c = .ok c2) : c2 = ⟨c⟩ := by
  unfold CmdExecutor._prepare_command at h
  by_cases hf : c.falsy = true
  · rw [if_pos hf] at h; cases h
  · rw [if_neg hf] at h; cases h; rfl

lemma prepare_command_falsy (c : Cmd) (hf : c.falsy = true) :
    CmdExecutor._prepare_command c = .error (.valueError "Empty command") := by
  unfold CmdExecutor._prepare_command
  rw [if_pos hf]

lemma prepare_commands_ok_map (l : List Cmd) (cs : List _Command)
    (h : CmdExecutor._prepare_commands l = .ok cs) : cs = l.map _Command.mk := by
  induction l generalizing cs with
  | nil => cases h; rfl
  | cons c rest ih =>
    unfold CmdExecutor._prepare_commands at h
    cases hc : CmdExecutor._prepare_command c with
    | error e => rw [hc] at h; cases h
    | ok c2 =>
      rw [hc] at h
      cases hr : CmdExecutor._prepare_commands rest with
      | error e => rw [hr] at h; cases h
      | ok rest2 =>
        rw [hr] at h
        cases h
        rw [List.map_cons, prepare_command_ok c c2 hc, ih rest2 hr]

lemma prepare_commands_error_of_falsy (l : List Cmd) (c : Cmd)
    (hc : c ∈ l) (hf : c.falsy = true) :
    CmdExecutor._prepare_commands l = .error (.valueError "Empty command") := by
  induction l with
  | nil => cases hc
  | cons a rest ih =>
    unfold CmdExecutor._prepare_commands
    rcases List.mem_cons.mp hc with rfl | hmem
    · rw [prepare_command_falsy c hf]
    · by_cases ha : a.falsy = true
      · rw [prepare_command_falsy a ha]
      · unfold CmdExecutor._prepare_command
        rw [if_neg ha, ih hmem]

lemma spawn_collect_length_eq (os : OS) :
    ∀ (start : Nat) (cs : List _Command),
      (CmdExecutor._spawn_collect os start cs).length = cs.length := by
  intro start cs
  induction cs generalizing start with
  | nil => rfl
  | cons c rest ih => simp [CmdExecutor._spawn_collect, ih]

lemma spawn_collect_get? (os : OS) :
    ∀ (cs : List _Command) (start j : Nat) (c : _Command),
      cs.get? j = some c →
      (CmdExecutor._spawn_collect os start cs).get? j =
        some ⟨(os.popen (start + j) c.execf).pid,
          ⟨(os.popen (start + j) c.execf).returncode, .args c.execf,
           (os.popen (start + j) c.execf).stdout,
           (os.popen (start + j) c.execf).stderr⟩⟩ := by
  intro cs
  induction cs with
  | nil => intro start j c h; cases h
  | cons a rest ih =>
    intro start j c h
    cases j with
    | zero =>
      rw [List.get?_cons_zero] at h
      cases h
      simp [CmdExecutor._spawn_collect]
    | succ j =>
      rw [List.get?_cons_succ] at h
      have := ih (start + 1) j c h
      simpa [CmdExecutor._spawn_collect, Nat.add_assoc, Nat.add_comm 1 j] using this

/-! ### Claim theorems -/

/-- C1: whenever the invoked process exits with a nonzero code, `run_cmd`
with `check_result = true` raises a `CmdExecutorAnswerResultError` whose
`exit_code` equals that code, and `run_cmd` with `check_result = false`
returns the answer (with that `exit_code`) without raising. -/
theorem claim_c1_nonzero_exit (os : OS) (cmd : Cmd) (stdin : Option String)
    (call hidden call_log : Bool) (command : _Command) (a : CmdExecutorAnswer)
    (hprep : CmdExecutor._prepare_command cmd = .ok command)
    (hinv : (if call then CmdExecutor._invoke_call os command call_log
             else CmdExecutor._invoke_run os command stdin) = .ok a)
    (hn : a.exit_code ≠ 0) :
    (∃ a2 c2, CmdExecutor.runCmd os cmd stdin call hidden true call_log =
        .error (.answerResultError a2 c2) ∧ a2.exit_code = a.exit_code) ∧
    CmdExecutor.runCmd os cmd stdin call hidden false call_log = .ok a := by
  have hex := (prepare_answer_fields a hidden).1
  have hch : CmdExecutor.check_result (CmdExecutor._prepare_check_result_answer a hidden) =
      .error (.answerResultError (CmdExecutor._prepare_check_result_answer a hidden) none) := by
    unfold CmdExecutor.check_result
    rw [if_pos]
    rw [hex]; exact hn
  constructor
  · refine ⟨CmdExecutor._prepare_check_result_answer a hidden,
      some (.answerResultError (CmdExecutor._prepare_check_result_answer a hidden) none),
      ?_, hex⟩
    simp only [CmdExecutor.runCmd, hprep, hinv, hch, if_true]
  · simp only [CmdExecutor.runCmd, hprep, hinv, Bool.false_eq_true, if_false]

/-- C1 witness: a process exiting 7 under a concrete oracle. -/
theorem claim_c1_witness :
    (∃ a2 c2, CmdExecutor.runCmd osSeven (.str "exit 7") none false false true true =
        .error (.answerResultError a2 c2) ∧ a2.exit_code = 7) ∧
    CmdExecutor.runCmd osSeven (.str "exit 7") none false false false true =
      .ok ⟨7, .obj ⟨.str "exit 7"⟩, "out", "err"⟩ :=
  claim_c1_nonzero_exit osSeven (.str "exit 7") none false false true
    ⟨.str "exit 7"⟩ ⟨7, .obj ⟨.str "exit 7"⟩, "out", "err"⟩ rfl rfl (by decide)

/-- C2: an empty raw command (empty string or empty list) makes
normalization, and hence `run_cmd` for every oracle (so before any
process is spawned), fail with `ValueError("Empty command")`; every
non-empty raw command normalizes to a `_Command` wrapping it. -/
theorem claim_c2_empty_command (cmd : Cmd) :
    ((cmd = .str "" ∨ cmd = .list []) →
      CmdExecutor._prepare_command cmd = .error (.valueError "Empty command") ∧
      ∀ (os : OS) (stdin : Option String) (call hidden chk clog : Bool),
        CmdExecutor.runCmd os cmd stdin call hidden chk clog =
          .error (.valueError "Empty command")) ∧
    (cmd ≠ .str "" → cmd ≠ .list [] →
      ∃ c, CmdExecutor._prepare_command cmd = .ok c ∧ c._cmd = cmd) := by
  constructor
  · rintro (rfl | rfl) <;> exact ⟨rfl, fun os stdin call hidden chk clog => rfl⟩
  · intro h1 h2
    refine ⟨⟨cmd⟩, ?_, rfl⟩
    unfold CmdExecutor._prepare_command
    rw [if_neg]
    cases cmd with
    | str s =>
      simp only [Cmd.falsy, beq_iff_eq]
      exact fun h => h1 (by rw [h])
    | list l =>
      simp only [Cmd.falsy, beq_iff_eq]
      exact fun h => h2 (by rw [h])

/-- C2 witness: the empty string fails, a non-empty string succeeds. -/
theorem claim_c2_witness :
    (CmdExecutor._prepare_command (.str "") = .error (.valueError "Empty command") ∧
     CmdExecutor.runCmd osSeven (.str "") none false false true true =
       .error (.valueError "Empty command")) ∧
    (∃ c, CmdExecutor._prepare_command (.str "echo hi") = .ok c ∧
      c._cmd = .str "echo hi") :=
  ⟨⟨((claim_c2_empty_command (.str "")).1 (Or.inl rfl)).1,
    ((claim_c2_empty_command (.str "")).1 (Or.inl rfl)).2 osSeven none false false true true⟩,
   (claim_c2_empty_command (.str "echo hi")).2 (by decide) (by decide)⟩

/-- C6: `check_result` raises `CmdExecutorAnswerResultError` on exactly
the answers with nonzero `exit_code` and returns unit on the rest; it is
a pure function of the answer, so a second call on the same answer is the
same term and behaves identically. -/
theorem claim_c6_check_result_iff (a : CmdExecutorAnswer) :
    (CmdExecutor.check_result a = .error (.answerResultError a none) ↔ a.exit_code ≠ 0) ∧
    (CmdExecutor.check_result a = .ok () ↔ a.exit_code = 0) ∧
    CmdExecutor.check_result a = CmdExecutor.check_result a := by
  unfold CmdExecutor.check_result
  by_cases h : a.exit_code = 0 <;> simp [h]

/-- C10: redaction keeps `exit_code` and `stdout` of the input answer
unchanged and constructs a fresh record (the embedding is pure, so the
input answer itself is untouched) in which only `command` (now the
`["HIDDEN"]` placeholder) and `stderr` (now the captured stdout) differ
from the input. -/
theorem claim_c10_redaction_frame (a : CmdExecutorAnswer) :
    (CmdExecutor._prepare_check_result_answer a true).exit_code = a.exit_code ∧
    (CmdExecutor._prepare_check_result_answer a true).stdout = a.stdout ∧
    (CmdExecutor._prepare_check_result_answer a true).command = .obj ⟨.list ["HIDDEN"]⟩ ∧
    (CmdExecutor._prepare_check_result_answer a true).stderr = a.stdout :=
  ⟨rfl, rfl, rfl, rfl⟩

/-- C3 counterexample: with `hidden_command = true` but
`check_result = false`, the returned result keeps the original command
(not the `["HIDDEN"]` placeholder) and its stderr is the process stderr,
not the captured stdout — redaction only runs inside the
`if check_result:` branch, so the claim's "regardless of the
check_result flag" is false. -/
theorem claim_c3_counterexample :
    CmdExecutor.runCmd osZero (.str "secret") none false true false true =
      .ok ⟨0, .obj ⟨.str "secret"⟩, "out", "err"⟩ ∧
    CmdField.obj ⟨.str "secret"⟩ ≠ .obj ⟨.list ["HIDDEN"]⟩ ∧
    ("err" : String) ≠ "out" :=
  ⟨rfl, by decide, by decide⟩

/-- C3 amended: with `hidden_command = true` and `check_result = true`,
any result `run_cmd` produces — returned on success or carried by the
raised `CmdExecutorAnswerResultError` — has the `["HIDDEN"]` placeholder
as its command and the captured stdout as its stderr. -/
theorem claim_c3_redaction (os : OS) (cmd : Cmd) (stdin : Option String)
    (call call_log : Bool) (command : _Command) (a : CmdExecutorAnswer)
    (hprep : CmdExecutor._prepare_command cmd = .ok command)
    (hinv : (if call then CmdExecutor._invoke_call os command call_log
             else CmdExecutor._invoke_run os command stdin) = .ok a) :
    (∀ a2, CmdExecutor.runCmd os cmd stdin call true true call_log = .ok a2 →
      a2.command = .obj ⟨.list ["HIDDEN"]⟩ ∧ a2.stderr = a.stdout) ∧
    (∀ a2 c2, CmdExecutor.runCmd os cmd stdin call true true call_log =
        .error (.answerResultError a2 c2) →
      a2.command = .obj ⟨.list ["HIDDEN"]⟩ ∧ a2.stderr = a.stdout) := by
  have hred : CmdExecutor._prepare_check_result_answer a true =
      ⟨a.exit_code, .obj ⟨.list ["HIDDEN"]⟩, a.stdout, a.stdout⟩ := rfl
  rcases eq_or_ne a.exit_code 0 with h0 | h0
  · have hch : CmdExecutor.check_result ⟨a.exit_code, .obj ⟨.list ["HIDDEN"]⟩, a.stdout, a.stdout⟩ =
        .ok () := by
      unfold CmdExecutor.check_result
      rw [if_neg]
      simpa using h0
    have hrun : CmdExecutor.runCmd os cmd stdin call true true call_log =
        .ok ⟨a.exit_code, .obj ⟨.list ["HIDDEN"]⟩, a.stdout, a.stdout⟩ := by
      simp only [CmdExecutor.runCmd, hprep, hinv, hch, if_true, hred]
    constructor
    · intro a2 h
      rw [hrun] at h
      cases h
      exact ⟨rfl, rfl⟩
    · intro a2 c2 h
      rw [hrun] at h
      cases h
  · have hch : CmdExecutor.check_result ⟨a.exit_code, .obj ⟨.list ["HIDDEN"]⟩, a.stdout, a.stdout⟩ =
        .error (.answerResultError ⟨a.exit_code, .obj ⟨.list ["HIDDEN"]⟩, a.stdout, a.stdout⟩ none) := by
      unfold CmdExecutor.check_result
      rw [if_pos]
      simpa using h0
    have hrun : CmdExecutor.runCmd os cmd stdin call true true call_log =
        .error (.answerResultError ⟨a.exit_code, .obj ⟨.list ["HIDDEN"]⟩, a.stdout, a.stdout⟩
          (some (.answerResultError ⟨a.exit_code, .obj ⟨.list ["HIDDEN"]⟩, a.stdout, a.stdout⟩ none))) := by
      simp only [CmdExecutor.runCmd, hprep, hinv, hch, if_true, hred]
    constructor
    · intro a2 h
      rw [hrun] at h
      cases h
    · intro a2 c2 h
      rw [hrun] at h
      cases h
      exact ⟨rfl, rfl⟩

/-- C3 witness: the amended redaction property at a concrete oracle. -/
theorem claim_c3_witness :
    (∀ a2, CmdExecutor.runCmd osZero (.str "secret") none false true true true = .ok a2 →
      a2.command = .obj ⟨.list ["HIDDEN"]⟩ ∧ a2.stderr = "out") ∧
    (∀ a2 c2, CmdExecutor.runCmd osZero (.str "secret") none false true true true =
        .error (.answerResultError a2 c2) →
      a2.command = .obj ⟨.list ["HIDDEN"]⟩ ∧ a2.stderr = "out") :=
  claim_c3_redaction osZero (.str "secret") none false true ⟨.str "secret"⟩
    ⟨0, .obj ⟨.str "secret"⟩, "out", "err"⟩ rfl rfl

/-- C4 counterexample: when the invocation faults under
`check_result = false`, the call does not return; it raises
`UnboundLocalError("answer")` at `return answer`, since the local
`answer` was never assigned. -/
theorem claim_c4_counterexample :
    CmdExecutor.runCmd osFault (.str "no-such-binary") none false false false true =
      .error (.unboundLocalError "answer") :=
  rfl

/-- C4 amended: when the invocation faults under `check_result = false`,
the `except` handler suppresses the fault, but the call still raises —
an `UnboundLocalError` for the never-assigned local `answer` at the
`return` statement — and no result is produced. -/
theorem claim_c4_fault_unvalidated (os : OS) (cmd : Cmd) (stdin : Option String)
    (call hidden call_log : Bool) (command : _Command) (e : String)
    (hprep : CmdExecutor._prepare_command cmd = .ok command)
    (hinv : (if call then CmdExecutor._invoke_call os command call_log
             else CmdExecutor._invoke_run os command stdin) = .error e) :
    CmdExecutor.runCmd os cmd stdin call hidden false call_log =
      .error (.unboundLocalError "answer") := by
  simp only [CmdExecutor.runCmd, hprep, hinv]

/-- C4 witness: the amended fault behavior at a concrete oracle. -/
theorem claim_c4_witness :
    CmdExecutor.runCmd osFault (.str "boom") none false false false true =
      .error (.unboundLocalError "answer") :=
  claim_c4_fault_unvalidated osFault (.str "boom") none false false true
    ⟨.str "boom"⟩ "FileNotFoundError" rfl rfl

/-- C5: when the invocation faults under `check_result = true`, the code
reaches `raise CmdExecutorAnswerResultError(answer) from err` with the
local `answer` never assigned, so the call actually raises
`UnboundLocalError("answer")` — not the `CmdExecutorAnswerResultError`
promised by the claim, the spec, and `run_cmd`'s own docstring. -/
theorem claim_c5_fault_validated :
    CmdExecutor.runCmd osFault (.str "no-such-binary") none false false true true =
      .error (.unboundLocalError "answer") :=
  rfl

/-- C7: for a non-empty string input the normalized command's `shellf` is
the string unchanged and its `execf` is its shell-word tokenization; for
a non-empty vector input `execf` is the vector unchanged and `shellf` is
its elements joined with single spaces (no shell-escaping). -/
theorem claim_c7_command_forms :
    (∀ s : String, s ≠ "" →
      ∃ c, CmdExecutor._prepare_command (.str s) = .ok c ∧
        c.shellf = s ∧ c.execf = shlexSplit s) ∧
    (∀ l : List String, l ≠ [] →
      ∃ c, CmdExecutor._prepare_command (.list l) = .ok c ∧
        c.execf = l ∧ c.shellf = String.intercalate " " l) := by
  constructor
  · intro s hs
    refine ⟨⟨.str s⟩, ?_, rfl, rfl⟩
    unfold CmdExecutor._prepare_command
    rw [if_neg]
    simpa [Cmd.falsy] using hs
  · intro l hl
    refine ⟨⟨.list l⟩, ?_, rfl, rfl⟩
    unfold CmdExecutor._prepare_command
    rw [if_neg]
    simpa [Cmd.falsy] using hl

/-- C7 witness: a quoted string command and a vector command. -/
theorem claim_c7_witness :
    (∃ c, CmdExecutor._prepare_command (.str "echo \"a b\" c") = .ok c ∧
      c.shellf = "echo \"a b\" c" ∧ c.execf = shlexSplit "echo \"a b\" c") ∧
    shlexSplit "echo \"a b\" c" = ["echo", "a b", "c"] ∧
    (∃ c, CmdExecutor._prepare_command (.list ["printf", "%s x", "y"]) = .ok c ∧
      c.execf = ["printf", "%s x", "y"] ∧
      c.shellf = String.intercalate " " ["printf", "%s x", "y"]) ∧
    String.intercalate " " ["printf", "%s x", "y"] = "printf %s x y" :=
  ⟨claim_c7_command_forms.1 "echo \"a b\" c" (by decide), by decide,
   claim_c7_command_forms.2 ["printf", "%s x", "y"] (by decide), by decide⟩

/-- C8: when every command in the batch normalizes, `run_parallely_cmds`
returns exactly one `CmdExecutorParallelAnswer` per input command, in
input order: the entry at position `i` is built from the handle of the
process launched at position `i` on the `i`-th normalized command's exec
form, carrying its OS-assigned pid. -/
theorem claim_c8_parallel_order (os : OS) (cmd_list : List Cmd) (cmds : List _Command)
    (h : CmdExecutor._prepare_commands cmd_list = .ok cmds) :
    ∃ results, CmdExecutor.run_parallely_cmds os cmd_list = .ok results ∧
      results.length = cmd_list.length ∧
      ∀ (i : Nat) (c : _Command), cmds.get? i = some c →
        results.get? i = some
          ⟨(os.popen i c.execf).pid,
            ⟨(os.popen i c.execf).returncode, .args c.execf,
             (os.popen i c.execf).stdout, (os.popen i c.execf).stderr⟩⟩ := by
  refine ⟨CmdExecutor._spawn_collect os 0 cmds, ?_, ?_, ?_⟩
  · unfold CmdExecutor.run_parallely_cmds
    rw [h]
  · rw [spawn_collect_length_eq os 0 cmds, prepare_commands_ok_map cmd_list cmds h,
      List.length_map]
  · intro i c hc
    simpa using spawn_collect_get? os cmds 0 i c hc

/-- C8 witness: a two-command batch under a concrete oracle assigning
pid 100 + launch position. -/
theorem claim_c8_witness :
    ∃ results,
      CmdExecutor.run_parallely_cmds osPar [Cmd.list ["a"], Cmd.str "b c"] = .ok results ∧
      results.length = 2 ∧
      ∀ (i : Nat) (c : _Command),
        ([⟨.list ["a"]⟩, ⟨.str "b c"⟩] : List _Command).get? i = some c →
        results.get? i = some
          ⟨(osPar.popen i c.execf).pid,
            ⟨(osPar.popen i c.execf).returncode, .args c.execf,
             (osPar.popen i c.execf).stdout, (osPar.popen i c.execf).stderr⟩⟩ :=
  claim_c8_parallel_order osPar [Cmd.list ["a"], Cmd.str "b c"]
    [⟨.list ["a"]⟩, ⟨.str "b c"⟩] rfl

/-- C9: a batch containing an empty command makes `run_parallely_cmds`
fail with `ValueError("Empty command")` under every oracle — the
normalization comprehension aborts before the launch phase, so no
process is spawned for any sibling. -/
theorem claim_c9_batch_empty (cmd_list : List Cmd) (c : Cmd) (hc : c ∈ cmd_list)
    (hf : c = .str "" ∨ c = .list []) :
    ∀ os : OS, CmdExecutor.run_parallely_cmds os cmd_list =
      .error (.valueError "Empty command") := by
  intro os
  have hfal : c.falsy = true := by rcases hf with rfl | rfl <;> rfl
  unfold CmdExecutor.run_parallely_cmds
  rw [prepare_commands_error_of_falsy cmd_list c hc hfal]

/-- C9 witness: a batch whose second command is the empty list. -/
theorem claim_c9_witness :
    CmdExecutor.run_parallely_cmds osPar [Cmd.str "x", Cmd.list []] =
      .error (.valueError "Empty command") :=
  claim_c9_batch_empty [Cmd.str "x", Cmd.list []] (.list []) (by decide) (Or.inr rfl) osPar
